import Mathlib

/-!
Verification of the lab-instruments core: a shallow embedding of the
completion-protocol engine (`lab_instruments/core/scpi/common_scpi.py`),
the transport read/disconnect logic
(`lab_instruments/core/interfaces/{serial,socket}_interface.py`),
the connection factory (`lab_instruments/core/connection_factory.py`) and
the device registry (`lab_instruments/registry.py`), together with
theorems settling the specification claims about them.

Python machine-level conventions are embedded explicitly: Python integers
are unbounded (`Int`), bitwise operators follow two's-complement semantics
(negative numbers behave as an infinite string of high one-bits), `>>` is
an arithmetic (floor) shift, and falsiness of an integer is comparison
with zero.
-/

/-- Two's-complement bitwise NOT on unbounded integers (`~x = -x-1`),
matching Python's unary invert used in `~0b10`. -/
def pyNot : Int → Int
  | .ofNat n => .negSucc n
  | .negSucc n => .ofNat n

/-- Bit-clear on naturals (`m AND (NOT n)`), written with kernel-computable
operations. -/
def natLdiff (m n : ℕ) : ℕ := m ^^^ (m &&& n)

/-- Two's-complement bitwise AND on unbounded integers, matching Python's
`&`. The `negSucc n` constructor represents the complement of `n`, so each
case reduces to a `Nat` bitwise operation. -/
def pyLand : Int → Int → Int
  | .ofNat m, .ofNat n => .ofNat (m &&& n)
  | .ofNat m, .negSucc n => .ofNat (natLdiff m n)
  | .negSucc m, .ofNat n => .ofNat (natLdiff n m)
  | .negSucc m, .negSucc n => .negSucc (m ||| n)

/-- Arithmetic right shift on unbounded integers, matching Python's `>>`
(floor division by a power of two). -/
def pyShiftRight : Int → ℕ → Int
  | .ofNat m, i => .ofNat (m >>> i)
  | .negSucc m, i => .negSucc (m >>> i)

/-- Bit `i` of a Python integer, written the way the source tests it:
`(v >> i) & 1` compared with 1. -/
def pyTestBit (v : Int) (i : ℕ) : Bool := pyLand (pyShiftRight v i) 1 == 1

/-- Python `str.strip()` on the character list of a string: whitespace
removed from both ends. -/
def pyStripChars (l : List Char) : List Char :=
  ((l.dropWhile Char.isWhitespace).reverse.dropWhile Char.isWhitespace).reverse

/-- Python `str.strip()` at string type. -/
def pyStrip (s : String) : String := String.mk (pyStripChars s.data)

/-- Decimal value of a digit list, as built by Python `int` parsing. -/
def digitsToNat (l : List Char) : ℕ := l.foldl (fun a c => 10 * a + (c.toNat - 48)) 0

/-- Embedding of Python `int(s)` on decimal text: surrounding whitespace
is stripped, an optional sign is consumed, and the remainder must be a
nonempty run of ASCII digits; otherwise parsing fails (`ValueError`). -/
def pyParseInt (s : String) : Option Int :=
  match pyStripChars s.data with
  | [] => none
  | c :: rest =>
    let sign : Int := if c = '-' then -1 else 1
    let ds := if c = '-' ∨ c = '+' then rest else c :: rest
    if ds ≠ [] ∧ ds.all Char.isDigit then some (sign * (digitsToNat ds : Int)) else none

/-- The fixed table `SCPIError.ESR_MEANINGS`: one named condition per bit
of the 8-bit event status register, bit 0 first. -/
def ESR_MEANINGS : List String :=
  ["Operation Complete",
   "Request Control",
   "Query Error",
   "Device Dependent Error",
   "Execution Error",
   "Command Error",
   "User Request",
   "Power On"]

/-- Embedding of `SCPIError.decode_esr`: the names whose bit is set,
testing `(esr_value >> i) & 1` for each entry of the table in order. -/
def decode_esr (esr_value : Int) : List String :=
  ((ESR_MEANINGS.enum).filter (fun p => pyTestBit esr_value p.1)).map (fun p => p.2)

/-- Embedding of `SCPIError.format_message`. -/
def format_message (esr_value : Int) (flags : List String) : String :=
  if flags = [] then "SCPI Error: ESR=" ++ toString esr_value ++ " (No error flags set)"
  else "SCPI Error: ESR=" ++ toString esr_value ++ " (Flags: " ++ String.intercalate ", " flags ++ ")"

/-- The data carried by a raised `SCPIError`: the raw register value, the
decoded flag list, and the exception message. -/
structure SCPIErrorData where
  esr_value : Int
  flags : List String
  msg : String
deriving DecidableEq, Repr

/-- Embedding of `SCPIError.__init__`: flags are decoded from the raw
value; the message defaults to `format_message` when the explicit message
argument is absent or falsy (Python `message or ...`). -/
def mkSCPIError (esr_value : Int) (message : Option String) : SCPIErrorData :=
  let flags := decode_esr esr_value
  { esr_value := esr_value
    flags := flags
    msg :=
      match message with
      | some m => if m = "" then format_message esr_value flags else m
      | none => format_message esr_value flags }

/-- Terminal outcomes of the safe-mode completion handshake in
`CommonSCPI.send` and `CommonSCPI.query`: normal loop exit, a raised
`SCPIError` from set error bits, a raised `SCPIError` from an unparsable
register reply, or a raised `TimeoutError`. -/
inductive HandshakeOutcome where
  | completed
  | statusError (e : SCPIErrorData)
  | parseError (e : SCPIErrorData)
  | timeoutErr
deriving DecidableEq, Repr

/-- One polling iteration of the handshake as observed from outside: the
text the transport returned for the status-register query, and the wall
clock value sampled by that iteration. -/
structure PollStep where
  reply : String
  now : Int
deriving DecidableEq

/-- One iteration of the polling loop body in `CommonSCPI.send`
(lines 100-113): parse the reply (failure raises `SCPIError(-1, ...)`),
then test the completion bit `esr & 0b10` (other set bits raise
`SCPIError(esr)`, otherwise the loop breaks), then, when `timeout` is
nonzero and the elapsed wall time exceeds it, raise `TimeoutError`.
`none` means the iteration sleeps and the loop continues. -/
def stepTerminal (timeout start : Int) (s : PollStep) : Option HandshakeOutcome :=
  match pyParseInt s.reply with
  | none => some (.parseError (mkSCPIError (-1)
      (some ("Failed to parse ESR value: \x27" ++ s.reply ++ "\x27"))))
  | some esr =>
    if pyLand esr 2 ≠ 0 then
      if pyLand esr (pyNot 2) ≠ 0 then some (.statusError (mkSCPIError esr none))
      else some .completed
    else if timeout ≠ 0 ∧ s.now - start > timeout then some .timeoutErr
    else none

/-- The polling loop of `CommonSCPI.send` run over a finite trace of poll
observations: the first terminal iteration decides the outcome; `none`
means the trace ended with the loop still polling. -/
def runHandshake (timeout start : Int) : List PollStep → Option HandshakeOutcome
  | [] => none
  | s :: rest =>
    match stepTerminal timeout start s with
    | some o => some o
    | none => runHandshake timeout start rest

/-- Embedding of `CommonSCPI.query` (lines 115-138): the transport
response is captured first; with `safe=False` the function returns `None`
immediately (the source returns no value on that path); with `safe=True`
the completion handshake runs and the captured response is returned only
on normal completion. `Except.error` is a raised exception, the outer
`none` a still-running handshake. -/
def scpiQueryRun (response : String) (safe : Bool) (timeout start : Int)
    (trace : List PollStep) : Option (Except HandshakeOutcome (Option String)) :=
  if !safe then some (.ok none)
  else
    match runHandshake timeout start trace with
    | none => none
    | some .completed => some (.ok (some response))
    | some o => some (.error o)

/-- Discriminator for the `completed` outcome. -/
def HandshakeOutcome.isCompleted : HandshakeOutcome → Bool
  | .completed => true
  | _ => false

/-- Discriminator for the status-decoded error outcome. -/
def HandshakeOutcome.isStatusError : HandshakeOutcome → Bool
  | .statusError _ => true
  | _ => false

/-- Discriminator for the parse-failure outcome. -/
def HandshakeOutcome.isParseError : HandshakeOutcome → Bool
  | .parseError _ => true
  | _ => false

/-- Discriminator for the timeout outcome. -/
def HandshakeOutcome.isTimeoutErr : HandshakeOutcome → Bool
  | .timeoutErr => true
  | _ => false

/-- Number of the four terminal-outcome kinds an outcome belongs to. -/
def HandshakeOutcome.kindCount (o : HandshakeOutcome) : ℕ :=
  o.isCompleted.toNat + o.isStatusError.toNat + o.isParseError.toNat + o.isTimeoutErr.toNat

/-- Embedding of the accumulation loop of `SocketConnection.read`
(lines 49-61): while the buffer does not end with the terminator bytes,
receive a chunk; an empty chunk (end-of-stream) breaks the loop; finally
the buffer is decoded and stripped. Text is modelled at the character
level; `none` means the trace of received chunks ran out with the loop
still blocked in `recv`. -/
def socketReadLoop (terminator : List Char) : List (List Char) → List Char → Option (List Char)
  | chunks, data =>
    if terminator.isSuffixOf data then some (pyStripChars data)
    else
      match chunks with
      | [] => none
      | c :: rest =>
        if c = [] then some (pyStripChars data)
        else socketReadLoop terminator rest (data ++ c)

/-- Embedding of `SocketConnection.read` on a trace of `recv` results. -/
def socketRead (terminator : List Char) (chunks : List (List Char)) : Option (List Char) :=
  socketReadLoop terminator chunks []

/-- Embedding of the pyserial `readline()` call used by
`SerialConnection.read` (line 48): consume incoming bytes up to and
including the first line feed; `none` means no line feed ever arrives and
the call stays blocked. -/
def readlineChars : List Char → Option (List Char)
  | [] => none
  | c :: rest => if c = '\n' then some [c] else (readlineChars rest).map (List.cons c)

/-- Embedding of `SerialConnection.read` on the flat incoming byte
sequence: `self.ser.readline().decode(errors='ignore').strip()`. -/
def serialRead (incoming : List Char) : Option (List Char) :=
  (readlineChars incoming).map pyStripChars

/-- Connection-level error taxonomy of `core/interfaces/connection.py`,
restricted to the kinds the modelled operations raise. -/
inductive ConnError where
  | ioError (msg : String)
deriving DecidableEq, Repr

/-- State of a `SocketConnection`: constructor parameters plus the socket
handle (`None` when closed). -/
structure SocketConn where
  host : String
  port : ℕ
  timeout : Int
  terminator : List Char
  sock : Option Unit
deriving DecidableEq

/-- Embedding of `SocketConnection.is_connected`: `self.sock is not None`. -/
def SocketConn.is_connected (st : SocketConn) : Bool := st.sock.isSome

/-- Embedding of `SocketConnection.disconnect` (lines 28-34). The backend
`close()` either succeeds or raises `OSError`; `closeRaises` selects that
behaviour. On a raise the wrapped `ConnectionIOError` propagates before
the line `self.sock = None` runs, so the state is returned unchanged. -/
def SocketConn.disconnect (closeRaises : Bool) (st : SocketConn) :
    Option ConnError × SocketConn :=
  match st.sock with
  | some _ =>
    if closeRaises then (some (.ioError "Failed to close socket"), st)
    else (none, { st with sock := none })
  | none => (none, { st with sock := none })

/-- Handle held by a `SerialConnection`: the pyserial object with its
`is_open` flag. -/
structure SerialHandle where
  is_open : Bool
deriving DecidableEq

/-- State of a `SerialConnection`: constructor parameters plus the
pyserial handle (`None` when released). -/
structure SerialConn where
  port : String
  baudrate : ℕ
  timeout : Int
  terminator : List Char
  ser : Option SerialHandle
deriving DecidableEq

/-- Embedding of `SerialConnection.is_connected`:
`self.ser is not None and self.ser.is_open`. -/
def SerialConn.is_connected (st : SerialConn) : Bool :=
  match st.ser with
  | some h => h.is_open
  | none => false

/-- Embedding of `SerialConnection.disconnect` (lines 26-32): `close()` is
called only on an open handle and may raise `SerialException`; on a raise
the wrapped `ConnectionIOError` propagates before `self.ser = None` runs,
so the state is returned unchanged. -/
def SerialConn.disconnect (closeRaises : Bool) (st : SerialConn) :
    Option ConnError × SerialConn :=
  match st.ser with
  | some h =>
    if h.is_open then
      if closeRaises then (some (.ioError "Failed to close serial port"), st)
      else (none, { st with ser := none })
    else (none, { st with ser := none })
  | none => (none, { st with ser := none })

/-- Values occurring in configuration mappings and keyword arguments. -/
inductive PVal where
  | s (v : String)
  | i (v : Int)
  | b (v : Bool)
deriving DecidableEq, Repr

/-- Embedding of Python `str.upper()` for the ASCII strings the terminator
table compares against. -/
def pyUpper (s : String) : String := String.mk (s.data.map Char.toUpper)

/-- Embedding of `parse_terminator` (`connection_factory.py` lines 2-12):
strings are uppercased and looked up in the four-entry logical-name table
with the original value as the default; non-string values pass through the
`isinstance` guard unchanged. -/
def parse_terminator (val : PVal) : PVal :=
  match val with
  | .s v =>
    let upper := pyUpper v
    .s (if upper = "CR" then "\r"
        else if upper = "LF" then "\n"
        else if upper = "CRLF" then "\r\n"
        else if upper = "LFCR" then "\n\r"
        else v)
  | _ => val

/-- Parameter mappings (Python dicts keyed by strings), extensionally. -/
def Params : Type := String → Option PVal

/-- Embedding of the dict merge `{**a, **b}`: keys of `b` win. -/
def dictMerge (a b : Params) : Params :=
  fun k => match b k with
    | some v => some v
    | none => a k

/-- The empty dict. -/
def emptyParams : Params := fun _ => none

/-- Embedding of the terminator normalization inside `create_connection`:
`if 'terminator' in params: params['terminator'] = parse_terminator(...)`. -/
def normalizeTerm (params : Params) : Params :=
  fun k => if k = "terminator" then (params "terminator").map parse_terminator else params k

/-- A device configuration mapping as read from `config.json`: the
`method` field and the three per-method parameter blocks, each possibly
absent. -/
structure Config where
  method : Option String
  serial_params : Option Params
  socket_params : Option Params
  visa_params : Option Params

/-- Embedding of Python `x or y` for an optional string `x`: `y` is used
when `x` is `None` or empty. -/
def pyOrStr (a : Option String) (b : String) : String :=
  match a with
  | some s => if s = "" then b else s
  | none => b

/-- Embedding of Python `str.lower()` for ASCII method names. -/
def pyLower (s : String) : String := String.mk (s.data.map Char.toLower)

/-- The three transport variants `create_connection` can construct. -/
inductive ConnKind where
  | serial
  | socket
  | visa
deriving DecidableEq, Repr

/-- Embedding of `create_connection` (`connection_factory.py` lines
14-36): the effective method is the caller-supplied one if truthy, else
the configuration's `method` entry (default empty), lowercased; the
constructor parameters are the configuration's block for that method
merged with the caller keyword arguments (caller wins), with any
`terminator` entry normalized; an unknown method raises `ValueError`. -/
def create_connection (method : Option String) (config : Option Config)
    (kwargs : Option Params) : Except String (ConnKind × Params) :=
  let comm_method := pyLower (pyOrStr method
    (match config with
     | some c => (c.method).getD ""
     | none => ""))
  let kw := kwargs.getD emptyParams
  if comm_method = "serial" then
    let params := dictMerge ((config.bind Config.serial_params).getD emptyParams) kw
    .ok (.serial, normalizeTerm params)
  else if comm_method = "socket" then
    let params := dictMerge ((config.bind Config.socket_params).getD emptyParams) kw
    .ok (.socket, normalizeTerm params)
  else if comm_method = "visa" then
    let params := dictMerge ((config.bind Config.visa_params).getD emptyParams) kw
    .ok (.visa, normalizeTerm params)
  else .error ("Unknown method: " ++ comm_method)

/-- The parameter block of a configuration for a given effective method
(`serial_params`, `socket_params` or `visa_params`, default empty). -/
def Config.blockFor (c : Config) (k : ConnKind) : Params :=
  match k with
  | .serial => c.serial_params.getD emptyParams
  | .socket => c.socket_params.getD emptyParams
  | .visa => c.visa_params.getD emptyParams

/-- Embedding of `DeviceInfo` as stored by the registry: the descriptor
for one device name. The wrapper class is identified by its name. -/
structure DeviceInfo where
  name : String
  device_class : String
  config_path : Option String
  plugin_path : Option String
deriving DecidableEq, Repr

/-- Registry state: the `DeviceRegistry._devices` mapping. -/
def RegState : Type := String → Option DeviceInfo

/-- The empty registry. -/
def emptyReg : RegState := fun _ => none

/-- Embedding of `DeviceRegistry.register` (lines 104-113): the mapping
entry for `name` is assigned unconditionally. -/
def register (name device_class : String) (config_path plugin_path : Option String)
    (st : RegState) : RegState :=
  fun k => if k = name then some ⟨name, device_class, config_path, plugin_path⟩ else st k

/-- Observable facts about one plugin directory candidate, as consulted by
`DeviceRegistry._try_register_plugin`. -/
structure PluginDir where
  name : String
  scpiFileExists : Bool
  configFileExists : Bool
  importOk : Bool
  device_class : String

/-- Embedding of `DeviceRegistry._try_register_plugin` (lines 232-272):
already-registered names are skipped with success; a missing SCPI file or
a failing import reports failure without touching the registry; otherwise
the device is registered. -/
def tryRegisterPlugin (d : PluginDir) (st : RegState) :
    (Bool × Option String) × RegState :=
  if (st d.name).isSome then ((true, none), st)
  else if !d.scpiFileExists then ((false, some "SCPI file not found"), st)
  else if !d.importOk then ((false, some "Registration failed"), st)
  else
    ((true, none),
     register d.name d.device_class
       (if d.configFileExists then some (d.name ++ "/config.json") else none)
       (some d.name) st)

/-- Bit-level reading of `natLdiff`. -/
theorem natLdiff_testBit (m n i : ℕ) :
    (natLdiff m n).testBit i = (m.testBit i && !(n.testBit i)) := by
  simp only [natLdiff, Nat.testBit_xor, Nat.testBit_and]
  cases m.testBit i <;> cases n.testBit i <;> rfl

/-- A natural number is nonzero exactly when some bit of it is set. -/
theorem nat_ne_zero_iff_testBit (n : ℕ) : n ≠ 0 ↔ ∃ i, n.testBit i = true := by
  constructor
  · intro h
    exact (Nat.exists_most_significant_bit h).imp fun i hi => hi.1
  · rintro ⟨i, hi⟩ rfl
    simp at hi

/-- On nonnegative integers `pyTestBit` agrees with `Nat.testBit`. -/
theorem pyTestBit_ofNat (m i : ℕ) : pyTestBit (.ofNat m) i = m.testBit i := by
  show (Int.ofNat ((m >>> i) &&& 1) == 1) = m.testBit i
  rw [Nat.and_one_is_mod]
  rw [Nat.testBit_to_div_mod, Nat.shiftRight_eq_div_pow]
  rcases Nat.mod_two_eq_zero_or_one (m / 2 ^ i) with h | h <;> simp [h]

/-- On negative integers `pyTestBit` complements `Nat.testBit`, matching
two's-complement arithmetic shift. -/
theorem pyTestBit_negSucc (m i : ℕ) : pyTestBit (.negSucc m) i = !(m.testBit i) := by
  show (Int.ofNat (natLdiff 1 (m >>> i)) == 1) = !(m.testBit i)
  have h1 : m.testBit i = (m >>> i).testBit 0 := by simp [Nat.testBit_shiftRight]
  rw [h1, Nat.testBit_to_div_mod]
  simp only [pow_zero, Nat.div_one, natLdiff, Nat.and_comm 1 (m >>> i), Nat.and_one_is_mod]
  rcases Nat.mod_two_eq_zero_or_one (m >>> i) with h | h <;> rw [h] <;> decide

/-- Bits of the constant 2. -/
theorem testBit_two (i : ℕ) : Nat.testBit 2 i = decide (i = 1) := by
  have h : (2 : ℕ) = 2 ^ 1 := by norm_num
  rw [h, Nat.testBit_two_pow]
  by_cases h' : i = 1 <;> simp [h']
  omega

/-- Nonzero transfer between `Int.ofNat` and its argument. -/
theorem intOfNat_ne_zero (n : ℕ) : Int.ofNat n ≠ 0 ↔ n ≠ 0 :=
  ⟨fun h hn => h (hn ▸ rfl), fun h hn => h (Int.ofNat.inj hn)⟩

/-- The completion test of the polling loop: `esr & 0b10` is truthy
exactly when bit 1 is set. -/
theorem pyLand_two_ne_zero (v : Int) : pyLand v 2 ≠ 0 ↔ pyTestBit v 1 = true := by
  cases v with
  | ofNat m =>
    show Int.ofNat (m &&& 2) ≠ 0 ↔ _
    rw [pyTestBit_ofNat, intOfNat_ne_zero, nat_ne_zero_iff_testBit]
    constructor
    · rintro ⟨i, hi⟩
      rw [Nat.testBit_and, testBit_two, Bool.and_eq_true] at hi
      rcases hi with ⟨h1, h2⟩
      rwa [of_decide_eq_true h2] at h1
    · intro h
      exact ⟨1, by rw [Nat.testBit_and, h, testBit_two]; rfl⟩
  | negSucc m =>
    show Int.ofNat (natLdiff 2 m) ≠ 0 ↔ _
    rw [pyTestBit_negSucc, intOfNat_ne_zero, nat_ne_zero_iff_testBit]
    constructor
    · rintro ⟨i, hi⟩
      rw [natLdiff_testBit, testBit_two, Bool.and_eq_true] at hi
      rcases hi with ⟨h1, h2⟩
      rw [of_decide_eq_true h1] at h2
      exact h2
    · intro h
      refine ⟨1, ?_⟩
      rw [natLdiff_testBit, testBit_two]
      simpa using h

/-- Unfolding of the Python invert constant. -/
theorem pyNot_two_eq : pyNot 2 = Int.negSucc 2 := rfl

/-- The error test of the polling loop: `esr & ~0b10` is truthy exactly
when some bit other than bit 1 is set. -/
theorem pyLand_pyNot_two_ne_zero (v : Int) :
    pyLand v (pyNot 2) ≠ 0 ↔ ∃ i, i ≠ 1 ∧ pyTestBit v i = true := by
  rw [pyNot_two_eq]
  cases v with
  | ofNat m =>
    show Int.ofNat (natLdiff m 2) ≠ 0 ↔ _
    rw [intOfNat_ne_zero, nat_ne_zero_iff_testBit]
    constructor
    · rintro ⟨i, hi⟩
      rw [natLdiff_testBit, testBit_two, Bool.and_eq_true] at hi
      rcases hi with ⟨h1, h2⟩
      refine ⟨i, ?_, by rw [pyTestBit_ofNat]; exact h1⟩
      intro hi1
      rw [hi1] at h2
      simp at h2
    · rintro ⟨i, hne, hbit⟩
      rw [pyTestBit_ofNat] at hbit
      refine ⟨i, ?_⟩
      rw [natLdiff_testBit, testBit_two, hbit]
      simp [hne]
  | negSucc m =>
    show Int.negSucc (m ||| 2) ≠ 0 ↔ _
    constructor
    · intro _
      refine ⟨m + 2, by omega, ?_⟩
      rw [pyTestBit_negSucc]
      have hlt : m < 2 ^ (m + 2) :=
        lt_of_lt_of_le (Nat.lt_two_pow m) (Nat.pow_le_pow_right (by norm_num) (by omega))
      rw [Nat.testBit_eq_false_of_lt hlt]
      rfl
    · intro _ h
      cases h

/-- Membership in the decoded flag list is exactly a set bit among the
eight named positions. -/
theorem mem_decode_esr (v : Int) (nm : String) :
    nm ∈ decode_esr v ↔ ∃ i, i < 8 ∧ pyTestBit v i = true ∧ ESR_MEANINGS.get? i = some nm := by
  unfold decode_esr
  constructor
  · intro h
    rcases List.mem_map.mp h with ⟨⟨i, s⟩, hp, hs⟩
    rcases List.mem_filter.mp hp with ⟨hmem, hbit⟩
    have hget : ESR_MEANINGS.get? i = some s := List.mem_enum_iff_get?.mp hmem
    have hlen : i < ESR_MEANINGS.length := (List.get?_eq_some.mp hget).1
    subst hs
    exact ⟨i, by simpa using hlen, hbit, hget⟩
  · rintro ⟨i, _, hbit, hget⟩
    apply List.mem_map.mpr
    refine ⟨(i, nm), List.mem_filter.mpr ⟨List.mem_enum_iff_get?.mpr hget, hbit⟩, rfl⟩

/-- Unfolding equation of the polling loop on a nonempty trace. -/
theorem runHandshake_cons (timeout start : Int) (a : PollStep) (l : List PollStep) :
    runHandshake timeout start (a :: l) =
      (match stepTerminal timeout start a with
       | some o => some o
       | none => runHandshake timeout start l) := rfl

/-- A prefix on which the loop is still polling can be discarded. -/
theorem runHandshake_drop (timeout start : Int) (n : ℕ) (l : List PollStep)
    (h : runHandshake timeout start (l.take n) = none) :
    runHandshake timeout start l = runHandshake timeout start (l.drop n) := by
  induction n generalizing l with
  | zero => simp
  | succ n ih =>
    cases l with
    | nil => simp
    | cons a l' =>
      rw [List.take_succ_cons, runHandshake_cons] at h
      rw [List.drop_succ_cons, runHandshake_cons]
      cases hs : stepTerminal timeout start a with
      | some o => rw [hs] at h; exact absurd h (by simp)
      | none =>
        rw [hs] at h
        exact ih l' h

/-- When the loop is still polling before step `n` and step `n` is
terminal, the invocation's outcome is that step's outcome. -/
theorem runHandshake_at_step (timeout start : Int) (tr : List PollStep) (n : ℕ)
    (s : PollStep) (hn : tr.get? n = some s)
    (hreach : runHandshake timeout start (tr.take n) = none)
    (o : HandshakeOutcome) (hstep : stepTerminal timeout start s = some o) :
    runHandshake timeout start tr = some o := by
  have hn' : tr[n]? = some s := by
    rw [← List.get?_eq_getElem?]
    exact hn
  rcases List.getElem?_eq_some.mp hn' with ⟨hlt, hg2⟩
  have hdrop := List.drop_eq_getElem_cons (n := n) (l := tr) hlt
  rw [hg2] at hdrop
  rw [runHandshake_drop timeout start n tr hreach, hdrop, runHandshake_cons, hstep]

/-- Every handshake outcome is of exactly one of the four terminal
kinds. -/
theorem kindCount_eq_one (o : HandshakeOutcome) : o.kindCount = 1 := by
  cases o <;> rfl

/-- Reduction of a poll iteration whose reply parses with the completion
bit and some other bit set. -/
theorem stepTerminal_status (timeout start : Int) (s : PollStep) (v : Int)
    (hv : pyParseInt s.reply = some v) (h2 : pyLand v 2 ≠ 0)
    (hot : pyLand v (pyNot 2) ≠ 0) :
    stepTerminal timeout start s = some (.statusError (mkSCPIError v none)) := by
  unfold stepTerminal
  simp only [hv]
  rw [if_pos h2, if_pos hot]

/-- Reduction of a poll iteration whose reply parses with only the
completion bit set. -/
theorem stepTerminal_completed (timeout start : Int) (s : PollStep) (v : Int)
    (hv : pyParseInt s.reply = some v) (h2 : pyLand v 2 ≠ 0)
    (hot : ¬ pyLand v (pyNot 2) ≠ 0) :
    stepTerminal timeout start s = some .completed := by
  unfold stepTerminal
  simp only [hv]
  rw [if_pos h2, if_neg hot]

/-- Reduction of a poll iteration whose reply does not parse. -/
theorem stepTerminal_parse_failure (timeout start : Int) (s : PollStep)
    (hbad : pyParseInt s.reply = none) :
    stepTerminal timeout start s = some (.parseError (mkSCPIError (-1)
      (some ("Failed to parse ESR value: \x27" ++ s.reply ++ "\x27")))) := by
  unfold stepTerminal
  simp only [hbad]

/-- Reduction of a poll iteration whose reply parses without the
completion bit: only the deadline check remains. -/
theorem stepTerminal_no_completion (timeout start : Int) (s : PollStep) (v : Int)
    (hv : pyParseInt s.reply = some v) (h2 : ¬ pyLand v 2 ≠ 0) :
    stepTerminal timeout start s =
      (if timeout ≠ 0 ∧ s.now - start > timeout then some .timeoutErr else none) := by
  unfold stepTerminal
  simp only [hv]
  rw [if_neg h2]

/-- A poll iteration past a nonzero deadline never continues the loop. -/
theorem stepTerminal_deadline_ne_none (timeout start : Int) (s : PollStep)
    (h0 : timeout ≠ 0) (hgt : s.now - start > timeout) :
    stepTerminal timeout start s ≠ none := by
  cases hv : pyParseInt s.reply with
  | none => rw [stepTerminal_parse_failure timeout start s hv]; simp
  | some v =>
    by_cases h2 : pyLand v 2 ≠ 0
    · by_cases hot : pyLand v (pyNot 2) ≠ 0
      · rw [stepTerminal_status timeout start s v hv h2 hot]; simp
      · rw [stepTerminal_completed timeout start s v hv h2 hot]; simp
    · rw [stepTerminal_no_completion timeout start s v hv h2, if_pos ⟨h0, hgt⟩]
      simp

/-- C1: in a safe-mode `send`, whenever the polling loop reaches an
iteration whose status-register reply parses to an integer with bit 1
(value 2) set, the invocation terminates there: with a status-decoded
`SCPIError` whose flags are exactly the named conditions of the set bits
when any other bit is set, and with success when only bit 1 is set. -/
theorem send_safe_completion_bit_dispatch
    (timeout start : Int) (tr : List PollStep) (n : ℕ) (s : PollStep)
    (hn : tr.get? n = some s)
    (hreach : runHandshake timeout start (tr.take n) = none)
    (v : Int) (hv : pyParseInt s.reply = some v)
    (hbit : pyTestBit v 1 = true) :
    ((∃ i, i ≠ 1 ∧ pyTestBit v i = true) →
        runHandshake timeout start tr = some (.statusError (mkSCPIError v none)) ∧
        ∀ nm, nm ∈ (mkSCPIError v none).flags ↔
          ∃ i, i < 8 ∧ pyTestBit v i = true ∧ ESR_MEANINGS.get? i = some nm) ∧
    ((¬ ∃ i, i ≠ 1 ∧ pyTestBit v i = true) →
        runHandshake timeout start tr = some .completed) := by
  have h2 : pyLand v 2 ≠ 0 := (pyLand_two_ne_zero v).mpr hbit
  constructor
  · intro hex
    have hot : pyLand v (pyNot 2) ≠ 0 := (pyLand_pyNot_two_ne_zero v).mpr hex
    refine ⟨runHandshake_at_step timeout start tr n s hn hreach _
      (stepTerminal_status timeout start s v hv h2 hot), fun nm => ?_⟩
    show nm ∈ decode_esr v ↔ _
    exact mem_decode_esr v nm
  · intro hnex
    have hot : ¬ pyLand v (pyNot 2) ≠ 0 := fun habs =>
      hnex ((pyLand_pyNot_two_ne_zero v).mp habs)
    exact runHandshake_at_step timeout start tr n s hn hreach _
      (stepTerminal_completed timeout start s v hv h2 hot)

/-- Witness for C1 at the spec's own example: reply `"34"` yields a
status error whose flags are exactly the conditions of bits 1 and 5. -/
theorem send_safe_completion_bit_dispatch_witness :
    runHandshake 5 0 [⟨"34", 0⟩] = some (.statusError (mkSCPIError 34 none)) ∧
    (mkSCPIError 34 none).flags = ["Request Control", "Command Error"] := by
  have h := send_safe_completion_bit_dispatch 5 0 [⟨"34", 0⟩] 0 ⟨"34", 0⟩ rfl rfl 34
    (by decide) (by decide)
  exact ⟨(h.1 ⟨5, by decide, by decide⟩).1, by decide⟩

/-- C3: with a nonzero `timeout` argument, a safe-mode handshake whose
poll trace reaches past the deadline terminates in exactly one of the
four terminal outcomes, and when no poll ever shows the completion bit
the outcome is the timeout error. -/
theorem handshake_terminates_with_nonzero_timeout
    (timeout start : Int) (tr : List PollStep)
    (h0 : timeout ≠ 0)
    (hex : ∃ s ∈ tr, s.now - start > timeout) :
    ∃ o, runHandshake timeout start tr = some o ∧ o.kindCount = 1 ∧
      ((∀ s ∈ tr, ∃ v, pyParseInt s.reply = some v ∧ pyLand v 2 = 0) →
        o = .timeoutErr) := by
  induction tr with
  | nil => simp at hex
  | cons a l ih =>
    cases hs : stepTerminal timeout start a with
    | some o =>
      refine ⟨o, by rw [runHandshake_cons, hs], kindCount_eq_one o, ?_⟩
      intro hall
      rcases hall a (List.mem_cons_self a l) with ⟨v, hv, hz⟩
      have h2 : ¬ pyLand v 2 ≠ 0 := by simpa using hz
      rw [stepTerminal_no_completion timeout start a v hv h2] at hs
      by_cases hc : timeout ≠ 0 ∧ a.now - start > timeout
      · rw [if_pos hc] at hs
        exact (Option.some.inj hs).symm
      · rw [if_neg hc] at hs
        exact absurd hs (by simp)
    | none =>
      have hex' : ∃ s ∈ l, s.now - start > timeout := by
        rcases hex with ⟨s, hsmem, hgt⟩
        rcases List.mem_cons.mp hsmem with rfl | hmem
        · exact absurd hs (stepTerminal_deadline_ne_none timeout start s h0 hgt)
        · exact ⟨s, hmem, hgt⟩
      rcases ih hex' with ⟨o, ho, hk, himp⟩
      refine ⟨o, ?_, hk, fun hall => himp fun s hm => hall s (List.mem_cons_of_mem a hm)⟩
      rw [runHandshake_cons, hs]
      exact ho

/-- Witness for C3: a single poll past the deadline with the completion
bit clear resolves the handshake with the timeout error. -/
theorem handshake_terminates_with_nonzero_timeout_witness :
    ∃ o, runHandshake 5 0 [⟨"0", 10⟩] = some o ∧ o.kindCount = 1 ∧
      ((∀ s ∈ [(⟨"0", 10⟩ : PollStep)], ∃ v, pyParseInt s.reply = some v ∧ pyLand v 2 = 0) →
        o = .timeoutErr) :=
  handshake_terminates_with_nonzero_timeout 5 0 [⟨"0", 10⟩] (by decide)
    ⟨⟨"0", 10⟩, by decide, by decide⟩

/-- C4: a status-register reply that does not parse as an integer
resolves the handshake at that very iteration with a protocol error whose
message carries the unparsed reply text, for every clock value and every
remainder of the trace. -/
theorem handshake_parse_failure_is_immediate
    (timeout start : Int) (tr : List PollStep) (n : ℕ) (s : PollStep)
    (hn : tr.get? n = some s)
    (hreach : runHandshake timeout start (tr.take n) = none)
    (hbad : pyParseInt s.reply = none) :
    runHandshake timeout start tr =
      some (.parseError (mkSCPIError (-1)
        (some ("Failed to parse ESR value: \x27" ++ s.reply ++ "\x27")))) ∧
    (mkSCPIError (-1)
        (some ("Failed to parse ESR value: \x27" ++ s.reply ++ "\x27"))).msg =
      "Failed to parse ESR value: \x27" ++ s.reply ++ "\x27" := by
  refine ⟨runHandshake_at_step timeout start tr n s hn hreach _
    (stepTerminal_parse_failure timeout start s hbad), ?_⟩
  have hne : ("Failed to parse ESR value: \x27" ++ s.reply ++ "\x27") ≠ "" := by
    intro h
    have hl := congrArg String.length h
    rw [String.length_append, String.length_append] at hl
    have h1 : ("Failed to parse ESR value: \x27").length = 28 := rfl
    have h2 : ("\x27" : String).length = 1 := rfl
    have h3 : ("" : String).length = 0 := rfl
    omega
  show (if ("Failed to parse ESR value: \x27" ++ s.reply ++ "\x27") = ""
        then format_message (-1) (decode_esr (-1))
        else "Failed to parse ESR value: \x27" ++ s.reply ++ "\x27") = _
  rw [if_neg hne]

/-- Witness for C4 at the spec's own example: reply `"not-a-number"`
fails with the parse error even though the clock is already past the
deadline. -/
theorem handshake_parse_failure_is_immediate_witness :
    runHandshake 5 0 [⟨"not-a-number", 100⟩] =
      some (.parseError (mkSCPIError (-1)
        (some ("Failed to parse ESR value: \x27not-a-number\x27")))) ∧
    (mkSCPIError (-1) (some ("Failed to parse ESR value: \x27not-a-number\x27"))).msg =
      "Failed to parse ESR value: \x27not-a-number\x27" :=
  handshake_parse_failure_is_immediate 5 0 [⟨"not-a-number", 100⟩] 0
    ⟨"not-a-number", 100⟩ rfl rfl (by decide)

/-- C10: the error raised for an unparsable status reply stores the
sentinel register value `-1`, whose decoding under arithmetic shift sets
every bit, so the flags attribute lists all 8 condition names. -/
theorem parse_failure_sentinel_decodes_all_flags
    (timeout start : Int) (tr : List PollStep) (n : ℕ) (s : PollStep)
    (hn : tr.get? n = some s)
    (hreach : runHandshake timeout start (tr.take n) = none)
    (hbad : pyParseInt s.reply = none) :
    ∃ e, runHandshake timeout start tr = some (.parseError e) ∧
      e.esr_value = -1 ∧ e.flags = decode_esr (-1) ∧ decode_esr (-1) = ESR_MEANINGS := by
  refine ⟨mkSCPIError (-1)
    (some ("Failed to parse ESR value: \x27" ++ s.reply ++ "\x27")), ?_, rfl, rfl, by decide⟩
  exact runHandshake_at_step timeout start tr n s hn hreach _
    (stepTerminal_parse_failure timeout start s hbad)

/-- Witness for C10: a concrete unparsable reply produces the sentinel
error carrying all 8 names. -/
theorem parse_failure_sentinel_decodes_all_flags_witness :
    ∃ e, runHandshake 0 0 [⟨"garbage", 0⟩] = some (.parseError e) ∧
      e.esr_value = -1 ∧ e.flags = decode_esr (-1) ∧ decode_esr (-1) = ESR_MEANINGS :=
  parse_failure_sentinel_decodes_all_flags 0 0 [⟨"garbage", 0⟩] 0 ⟨"garbage", 0⟩
    rfl rfl (by decide)

/-- C2 (code evaluation): `query` with `safe=False` returns `None`, not
the captured transport response, while the safe path returns the response
exactly on handshake success. -/
theorem query_unsafe_path_returns_none :
    scpiQueryRun "R" false 5 0 [] = some (.ok none) ∧
    scpiQueryRun "R" true 5 0 [⟨"2", 0⟩] = some (.ok (some "R")) ∧
    (some (Except.ok (some "R")) : Option (Except HandshakeOutcome (Option String))) ≠
      some (.ok none) :=
  ⟨rfl, rfl, fun h => by simp at h⟩

/-- Unfolding equation of the socket receive loop on an exhausted trace. -/
theorem socketReadLoop_nil (term : List Char) (data : List Char) :
    socketReadLoop term [] data =
      (if term.isSuffixOf data then some (pyStripChars data) else none) := rfl

/-- Unfolding equation of the socket receive loop on a nonempty trace. -/
theorem socketReadLoop_cons (term c : List Char) (rest : List (List Char)) (data : List Char) :
    socketReadLoop term (c :: rest) data =
      (if term.isSuffixOf data then some (pyStripChars data)
       else if c = [] then some (pyStripChars data)
       else socketReadLoop term rest (data ++ c)) := rfl

/-- Characterization of the socket receive loop: the returned text is the
stripped concatenation of the consumed chunks, consumption stops exactly
at the first point where the buffer ends with the terminator or a
zero-length read arrives. -/
theorem socketReadLoop_spec (term : List Char) (chunks : List (List Char)) :
    ∀ (data r : List Char),
      socketReadLoop term chunks data = some r →
      ∃ k, k ≤ chunks.length ∧
        r = pyStripChars (data ++ (chunks.take k).flatten) ∧
        (term.isSuffixOf (data ++ (chunks.take k).flatten) = true ∨ chunks.get? k = some []) ∧
        (∀ j, j < k → term.isSuffixOf (data ++ (chunks.take j).flatten) = false ∧
          chunks.get? j ≠ some []) := by
  induction chunks with
  | nil =>
    intro data r h
    rw [socketReadLoop_nil] at h
    by_cases hs : term.isSuffixOf data = true
    · rw [if_pos hs] at h
      refine ⟨0, by omega, ?_, ?_, by omega⟩
      · simpa using (Option.some.inj h).symm
      · left
        simpa using hs
    · rw [if_neg hs] at h
      exact absurd h (by simp)
  | cons c rest ih =>
    intro data r h
    rw [socketReadLoop_cons] at h
    by_cases hs : term.isSuffixOf data = true
    · rw [if_pos hs] at h
      refine ⟨0, by omega, ?_, ?_, by omega⟩
      · simpa using (Option.some.inj h).symm
      · left
        simpa using hs
    · rw [if_neg hs] at h
      by_cases hc : c = []
      · rw [if_pos hc] at h
        refine ⟨0, by omega, ?_, ?_, by omega⟩
        · simpa using (Option.some.inj h).symm
        · right
          rw [hc]
          rfl
      · rw [if_neg hc] at h
        rcases ih (data ++ c) r h with ⟨k, hk, hr, hstop, hmin⟩
        refine ⟨k + 1, by simpa using Nat.succ_le_succ hk, ?_, ?_, ?_⟩
        · rw [List.take_succ_cons, List.flatten_cons, ← List.append_assoc]
          exact hr
        · rw [List.take_succ_cons, List.flatten_cons, ← List.append_assoc]
          simpa using hstop
        · intro j hj
          cases j with
          | zero =>
            refine ⟨?_, ?_⟩
            · simp only [List.take_zero, List.flatten_nil, List.append_nil]
              exact Bool.eq_false_iff.mpr hs
            · intro habs
              exact hc (Option.some.inj habs)
          | succ j' =>
            have hm := hmin j' (by omega)
            rw [List.take_succ_cons, List.flatten_cons, ← List.append_assoc]
            simpa using hm

/-- C6 (counterexample): with terminator `"\r"` and incoming bytes
`"A\rB\n"` delivered as two chunks, the socket variant returns `"A"`
while the serial variant returns `"A\rB"` — the read contract is not
implemented identically across variants. -/
theorem read_contract_not_identical_across_variants :
    socketRead ['\r'] ["A\rB\n".data.take 2, "A\rB\n".data.drop 2] = some "A".data ∧
    serialRead ("A\rB\n".data) = some "A\rB".data ∧
    ("A".data : List Char) ≠ "A\rB".data := by decide

/-- C6 (amended): the socket variant accumulates chunks until the
configured terminator appears at the tail of the buffer or a zero-length
read arrives, then strips whitespace from both ends; minimality of the
stopping point is included. The serial variant instead delegates to the
backend `readline`, independent of the configured terminator. -/
theorem socket_read_terminator_contract (term : List Char) (chunks : List (List Char))
    (r : List Char) (h : socketRead term chunks = some r) :
    ∃ k, k ≤ chunks.length ∧
      r = pyStripChars ((chunks.take k).flatten) ∧
      (term.isSuffixOf ((chunks.take k).flatten) = true ∨ chunks.get? k = some []) ∧
      (∀ j, j < k → term.isSuffixOf ((chunks.take j).flatten) = false ∧
        chunks.get? j ≠ some []) := by
  have hs := socketReadLoop_spec term chunks [] r h
  simpa using hs

/-- Witness for the amended C6 contract at a concrete two-chunk trace. -/
theorem socket_read_terminator_contract_witness :
    ∃ k, k ≤ ([['A', 'B'], ['C', '\n']] : List (List Char)).length ∧
      ("ABC".data : List Char) =
        pyStripChars ((([['A', 'B'], ['C', '\n']] : List (List Char)).take k).flatten) ∧
      ((['\n'] : List Char).isSuffixOf
          ((([['A', 'B'], ['C', '\n']] : List (List Char)).take k).flatten) = true ∨
        ([['A', 'B'], ['C', '\n']] : List (List Char)).get? k = some []) ∧
      (∀ j, j < k →
        (['\n'] : List Char).isSuffixOf
          ((([['A', 'B'], ['C', '\n']] : List (List Char)).take j).flatten) = false ∧
        ([['A', 'B'], ['C', '\n']] : List (List Char)).get? j ≠ some []) :=
  socket_read_terminator_contract ['\n'] [['A', 'B'], ['C', '\n']] "ABC".data (by decide)

/-- C5 (counterexample): when the backend close raises, `disconnect` on a
connected socket propagates the error without clearing the handle, so
`is_connected()` still returns true afterwards. -/
theorem socket_disconnect_failure_keeps_handle :
    (SocketConn.disconnect true ⟨"h", 1, 1, ['\n'], some ()⟩).1 =
      some (.ioError "Failed to close socket") ∧
    (SocketConn.disconnect true ⟨"h", 1, 1, ['\n'], some ()⟩).2.is_connected = true := by
  decide

/-- C5 (amended): `disconnect` clears the handle and reports no error
whenever the backend close succeeds or the transport was never connected
(in particular a never-connected `disconnect` does not raise); but when
the backend close raises, the error propagates and the state — hence the
handle — is left unchanged. -/
theorem transport_disconnect_contract (sst : SocketConn) (rst : SerialConn) :
    ((SocketConn.disconnect false sst).1 = none ∧
      (SocketConn.disconnect false sst).2.is_connected = false) ∧
    ((SerialConn.disconnect false rst).1 = none ∧
      (SerialConn.disconnect false rst).2.is_connected = false) ∧
    (sst.sock = none → ∀ b, (SocketConn.disconnect b sst).1 = none ∧
      (SocketConn.disconnect b sst).2.is_connected = false) ∧
    (rst.ser = none → ∀ b, (SerialConn.disconnect b rst).1 = none ∧
      (SerialConn.disconnect b rst).2.is_connected = false) ∧
    (∀ e st2, SocketConn.disconnect true sst = (some e, st2) → st2 = sst) ∧
    (∀ e st2, SerialConn.disconnect true rst = (some e, st2) → st2 = rst) := by
  obtain ⟨shost, sport, stmo, sterm, sock⟩ := sst
  obtain ⟨rport, rbaud, rtmo, rterm, ser⟩ := rst
  refine ⟨?_, ?_, ?_, ?_, ?_, ?_⟩
  · cases sock <;> simp [SocketConn.disconnect, SocketConn.is_connected]
  · rcases ser with _ | ⟨⟨bo⟩⟩
    · simp [SerialConn.disconnect, SerialConn.is_connected]
    · cases bo <;> simp [SerialConn.disconnect, SerialConn.is_connected]
  · intro hnone b
    cases sock with
    | none => simp [SocketConn.disconnect, SocketConn.is_connected]
    | some u => exact absurd hnone (by simp)
  · intro hnone b
    rcases ser with _ | ⟨⟨bo⟩⟩
    · simp [SerialConn.disconnect, SerialConn.is_connected]
    · exact absurd hnone (by simp)
  · intro e st2 h
    cases sock with
    | none => simp [SocketConn.disconnect] at h
    | some u =>
      simp [SocketConn.disconnect] at h
      exact h.2.symm
  · intro e st2 h
    rcases ser with _ | ⟨⟨bo⟩⟩
    · simp [SerialConn.disconnect] at h
    · cases bo
      · simp [SerialConn.disconnect] at h
      · simp [SerialConn.disconnect] at h
        exact h.2.symm

/-- Witness for the amended C5: a never-connected socket and a serial
transport whose close succeeds. -/
theorem transport_disconnect_contract_witness :
    ((⟨"h", 1, 1, ['\n'], none⟩ : SocketConn).sock = none) ∧
    ((SocketConn.disconnect true ⟨"h", 1, 1, ['\n'], none⟩).1 = none ∧
      (SocketConn.disconnect true ⟨"h", 1, 1, ['\n'], none⟩).2.is_connected = false) ∧
    ((SerialConn.disconnect false ⟨"p", 9600, 1, ['\n'], some ⟨true⟩⟩).1 = none ∧
      (SerialConn.disconnect false ⟨"p", 9600, 1, ['\n'], some ⟨true⟩⟩).2.is_connected = false) :=
  ⟨rfl,
   (transport_disconnect_contract ⟨"h", 1, 1, ['\n'], none⟩
      ⟨"p", 9600, 1, ['\n'], some ⟨true⟩⟩).2.2.1 rfl true,
   (transport_disconnect_contract ⟨"h", 1, 1, ['\n'], none⟩
      ⟨"p", 9600, 1, ['\n'], some ⟨true⟩⟩).2.1⟩

/-- C7 (counterexample): `"cr"` is not one of the four logical names, yet
it does not pass through unchanged — the lookup uppercases its input
first. -/
theorem parse_terminator_lowercase_not_passthrough :
    parse_terminator (.s "cr") = .s "\r" ∧
    ("cr" ∉ (["CR", "LF", "CRLF", "LFCR"] : List String)) ∧
    PVal.s "\r" ≠ .s "cr" := by decide

/-- C7 (amended): terminator normalization is case-insensitive — every
string whose uppercasing equals one of the four logical names maps to the
corresponding literal sequence, every string whose uppercasing is none of
them passes through unchanged, and non-string values always pass
through. -/
theorem parse_terminator_case_insensitive (v : String) :
    (pyUpper v = "CR" → parse_terminator (.s v) = .s "\r") ∧
    (pyUpper v = "LF" → parse_terminator (.s v) = .s "\n") ∧
    (pyUpper v = "CRLF" → parse_terminator (.s v) = .s "\r\n") ∧
    (pyUpper v = "LFCR" → parse_terminator (.s v) = .s "\n\r") ∧
    (pyUpper v ∉ (["CR", "LF", "CRLF", "LFCR"] : List String) →
      parse_terminator (.s v) = .s v) ∧
    (∀ n : Int, parse_terminator (.i n) = .i n) ∧
    (∀ b : Bool, parse_terminator (.b b) = .b b) := by
  refine ⟨?_, ?_, ?_, ?_, ?_, fun n => rfl, fun b => rfl⟩
  · intro h
    simp [parse_terminator, h]
  · intro h
    simp [parse_terminator, h]
  · intro h
    simp [parse_terminator, h]
  · intro h
    simp [parse_terminator, h]
  · intro h
    simp only [List.mem_cons, List.not_mem_nil, or_false, not_or] at h
    obtain ⟨h1, h2, h3, h4⟩ := h
    simp [parse_terminator, h1, h2, h3, h4]

/-- Witness for the amended C7 at the lowercase name `"cr"`. -/
theorem parse_terminator_case_insensitive_witness :
    pyUpper "cr" = "CR" ∧ parse_terminator (.s "cr") = .s "\r" :=
  ⟨by decide, (parse_terminator_case_insensitive "cr").1 (by decide)⟩

/-- Pointwise behaviour of a merged-and-normalized parameter dict: caller
keys win, absent caller keys fall back to the block, and the terminator
entry is normalized. -/
theorem merged_params_props (block kw : Params) :
    (∀ key v, key ≠ "terminator" → kw key = some v →
      normalizeTerm (dictMerge block kw) key = some v) ∧
    (∀ key, key ≠ "terminator" → kw key = none →
      normalizeTerm (dictMerge block kw) key = block key) ∧
    (∀ v, kw "terminator" = some v →
      normalizeTerm (dictMerge block kw) "terminator" = some (parse_terminator v)) ∧
    (kw "terminator" = none →
      normalizeTerm (dictMerge block kw) "terminator" =
        (block "terminator").map parse_terminator) := by
  refine ⟨?_, ?_, ?_, ?_⟩
  · intro key v hk hkw
    simp [normalizeTerm, dictMerge, hk, hkw]
  · intro key hk hkw
    simp [normalizeTerm, dictMerge, hk, hkw]
  · intro v hkw
    simp [normalizeTerm, dictMerge, hkw]
  · intro hkw
    cases hb : block "terminator" <;> simp [normalizeTerm, dictMerge, hkw, hb]

/-- C8: the Transport constructor receives the configuration's block for
the effective method with caller keyword overrides applied on top (the
caller wins on key collisions), and the terminator among the effective
parameters is normalized through the logical-name table. -/
theorem create_connection_effective_params (method : Option String) (cfg : Config)
    (kw : Params) (kind : ConnKind) (params : Params)
    (h : create_connection method (some cfg) (some kw) = .ok (kind, params)) :
    (∀ key v, key ≠ "terminator" → kw key = some v → params key = some v) ∧
    (∀ key, key ≠ "terminator" → kw key = none → params key = cfg.blockFor kind key) ∧
    (∀ v, kw "terminator" = some v → params "terminator" = some (parse_terminator v)) ∧
    (kw "terminator" = none →
      params "terminator" = (cfg.blockFor kind "terminator").map parse_terminator) := by
  simp only [create_connection] at h
  split at h
  · rw [Except.ok.injEq, Prod.mk.injEq] at h
    obtain ⟨rfl, rfl⟩ := h
    exact merged_params_props (cfg.blockFor .serial) kw
  · split at h
    · rw [Except.ok.injEq, Prod.mk.injEq] at h
      obtain ⟨rfl, rfl⟩ := h
      exact merged_params_props (cfg.blockFor .socket) kw
    · split at h
      · rw [Except.ok.injEq, Prod.mk.injEq] at h
        obtain ⟨rfl, rfl⟩ := h
        exact merged_params_props (cfg.blockFor .visa) kw
      · exact absurd h (by simp)

/-- Witness for C8 at the spec's merge example: configured baudrate 9600
overridden by caller baudrate 115200. -/
theorem create_connection_effective_params_witness :
    ∃ params : Params,
      create_connection none
        (some ⟨some "serial",
          some (fun k => if k = "baudrate" then some (.i 9600) else none),
          none, none⟩)
        (some (fun k => if k = "baudrate" then some (.i 115200) else none)) =
        .ok (.serial, params) ∧
      params "baudrate" = some (.i 115200) := by
  refine ⟨_, rfl, ?_⟩
  have h := create_connection_effective_params none
    ⟨some "serial", some (fun k => if k = "baudrate" then some (.i 9600) else none),
      none, none⟩
    (fun k => if k = "baudrate" then some (.i 115200) else none) .serial _ rfl
  exact h.1 "baudrate" (.i 115200) (by decide) rfl

/-- C9 (counterexample): a direct second registration of an existing name
replaces the stored descriptor — the later registration wins, so
re-registration is not a no-op. -/
theorem register_overwrites_existing_descriptor :
    (register "dev" "B" none none (register "dev" "A" none none emptyReg)) "dev" =
      some ⟨"dev", "B", none, none⟩ ∧
    (register "dev" "A" none none emptyReg) "dev" = some ⟨"dev", "A", none, none⟩ ∧
    (some (⟨"dev", "B", none, none⟩ : DeviceInfo) ≠
      some (⟨"dev", "A", none, none⟩ : DeviceInfo)) := by
  refine ⟨rfl, rfl, by simp⟩

/-- C9 (amended): the registry map holds one descriptor per name by
construction; the plugin-discovery path skips names that are already
registered (first registration wins, no error), while a direct
`register` call overwrites the stored descriptor (last wins). -/
theorem registry_duplicate_registration (st : RegState) (d : PluginDir)
    (name c1 c2 : String) (p1 p2 q1 q2 : Option String) :
    ((st d.name).isSome = true → tryRegisterPlugin d st = ((true, none), st)) ∧
    (register name c2 p2 q2 (register name c1 p1 q1 st) name = some ⟨name, c2, p2, q2⟩) := by
  constructor
  · intro h
    unfold tryRegisterPlugin
    rw [if_pos h]
  · unfold register
    simp

/-- Witness for the amended C9: a concrete registry with one entry, one
skipped re-discovery and one overwriting re-registration. -/
theorem registry_duplicate_registration_witness :
    tryRegisterPlugin ⟨"x", true, true, true, "D"⟩ (register "x" "C" none none emptyReg) =
      ((true, none), register "x" "C" none none emptyReg) ∧
    register "n1" "X2" none none (register "n1" "X1" none none
      (register "x" "C" none none emptyReg)) "n1" = some ⟨"n1", "X2", none, none⟩ := by
  have h := registry_duplicate_registration (register "x" "C" none none emptyReg)
    ⟨"x", true, true, true, "D"⟩ "n1" "X1" "X2" none none none none
  exact ⟨h.1 rfl, h.2⟩
